import Mathlib

/-!
Verification development for a retrieval-augmented question answering service.

The development shallowly embeds the core of the repository:

* configuration defaults (src/config.py),
* the guardrail engine (src/guardrails/checker.py),
* the document chunking of the ingestion layer (src/processing/document_processor.py),
* the batched vector store builder and its cache manager (src/processing/document_processor.py),
* the four stage pipeline and its entry point (src/pipeline/rag_pipeline.py).

External collaborators (the FAISS vector index, the language model, the file
system cache) are modelled as explicit parameters: a vector store is the
similarity search function it provides, the generation service is a function
that may fail, cache and batch failures are oracles.  Python strings are
modelled by Lean strings, with character level helpers (lowercasing, trimming,
substring search, the numeric token scanner) implemented over character lists
so that every definition evaluates inside the kernel.
-/

/-! ## String helpers mirroring the Python primitives used by the code -/

/-- Substring test: Python's infix operator "needle in hay" on strings. -/
def strContains (hay needle : String) : Bool :=
  decide (needle.data <:+: hay.data)

/-- Python str.lower restricted to the ASCII range, applied character wise.
Lean's Char.toLower implements exactly the ASCII rule. -/
def lowerStr (s : String) : String :=
  ⟨s.data.map Char.toLower⟩

/-- Python str.strip: remove whitespace from both ends of a character list. -/
def stripChars (l : List Char) : List Char :=
  ((l.dropWhile Char.isWhitespace).reverse.dropWhile Char.isWhitespace).reverse

/-- Python str.strip on strings. -/
def pyStrip (s : String) : String :=
  ⟨stripChars s.data⟩

/-- Python " ".join(parts). -/
def joinSpace (parts : List String) : String :=
  ⟨((List.intersperse " " parts).map String.data).flatten⟩

/-! ## Configuration (src/config.py, dataclass defaults) -/

/-- Config.chunk_size. -/
def chunk_size : Nat := 800

/-- Config.chunk_overlap. -/
def chunk_overlap : Nat := 100

/-- Config.batch_size. -/
def batch_size : Nat := 20

/-- Config.retry_delay, 2.0 seconds in the source; time is modelled in
whole seconds. -/
def retry_delay : Nat := 2

/-- Config.sensitive_topics as filled in by Config.__post_init__. -/
def sensitive_topics : List String :=
  ["price", "pricing", "cost", "warranty", "guarantee",
   "availability", "stock", "delivery", "shipping",
   "technical specifications", "performance numbers"]

/-- GuardrailsChecker.fabrication_indicators (checker.py, __init__). -/
def fabrication_indicators : List String :=
  ["approximately", "around", "roughly", "about $", "₹",
   "starting from", "priced at", "costs", "estimated",
   "likely", "probably", "might be", "could be"]

/-! ## Data model -/

/-- The metadata fields of a langchain Document that the pipeline reads:
source kind, document id and chunk id (document_processor.py attaches them
to every created chunk). -/
structure Meta where
  source : String
  doc_id : String
  chunk_id : String
deriving DecidableEq, Repr

/-- A langchain Document: page content plus metadata. -/
structure Doc where
  page_content : String
  metadata : Meta
deriving DecidableEq, Repr

/-- Citation (api_models.py). -/
structure Citation where
  source : String
  doc_id : String
  chunk_id : String
deriving DecidableEq, Repr

/-- AnswerResponse (api_models.py). -/
structure AnswerResponse where
  answer : String
  status : String
  citations : List Citation
deriving DecidableEq, Repr

/-- RAGState (graph_state.py): the mutable state threaded through the
LangGraph nodes. -/
structure RAGState where
  question : String
  retrieved_facts : List Doc
  retrieved_external : List Doc
  answer : String
  citations : List Citation
  status : String
  needs_external : Bool
  is_sensitive : Bool
deriving DecidableEq, Repr

/-! ## Guardrail engine (src/guardrails/checker.py) -/

/-- GuardrailsChecker.is_sensitive_question: true iff the lower cased
question contains some configured sensitive topic as a substring. -/
def is_sensitive_question (question : String) : Bool :=
  sensitive_topics.any (fun topic => strContains (lowerStr question) topic)

/-- Character class of the regex character set [\d,]. -/
def isNumChar (c : Char) : Bool :=
  c.isDigit || c = ','

/-- One maximal match of the regex [\d,]+(?:\.\d+)? starting at the head of
the input, which is assumed to start with a [\d,] character; returns the
matched token and the rest of the input. -/
def numToken (l : List Char) : List Char × List Char :=
  let run := l.takeWhile isNumChar
  let rest := l.dropWhile isNumChar
  match rest with
  | '.' :: r2 =>
    let frac := r2.takeWhile Char.isDigit
    if frac = [] then (run, rest)
    else (run ++ '.' :: frac, r2.dropWhile Char.isDigit)
  | _ => (run, rest)

/-- Left to right scan of re.findall for the pattern [\d,]+(?:\.\d+)?; the
fuel argument bounds the recursion and is set to the input length by
findNumbers, which always suffices because every match consumes at least
one character. -/
def findNumbersAux : Nat → List Char → List (List Char)
  | 0, _ => []
  | _ + 1, [] => []
  | fuel + 1, c :: cs =>
    if isNumChar c then
      let p := numToken (c :: cs)
      p.1 :: findNumbersAux fuel p.2
    else
      findNumbersAux fuel cs

/-- re.findall of the numeric token pattern over a string. -/
def findNumbers (l : List Char) : List (List Char) :=
  findNumbersAux l.length l

/-- Python number.replace with a comma argument and an empty replacement. -/
def stripCommas (l : List Char) : List Char :=
  l.filter (fun c => c ≠ ',')

/-- Numeric value of a digit list. -/
def natOfDigits (l : List Char) : Nat :=
  l.foldl (fun a c => a * 10 + (c.toNat - '0'.toNat)) 0

/-- Python float(s) on the comma stripped numeric tokens produced by the
scanner.  Such a token always has the shape digits, or digits dot digits,
or dot digits, or is empty (a token made only of commas); float raises
ValueError exactly on the empty case.  The value is represented exactly as
an integer part and a fractional part given by a numerator and the number
of fractional digits (value = intPart + fracNum / 10 ^ fracLen). -/
def parseFloat? (l : List Char) : Option (Nat × Nat × Nat) :=
  match l.dropWhile Char.isDigit with
  | [] =>
    if l.takeWhile Char.isDigit = [] then none
    else some (natOfDigits (l.takeWhile Char.isDigit), 0, 0)
  | '.' :: frac =>
    if frac ≠ [] ∧ frac.all Char.isDigit then
      some (natOfDigits (l.takeWhile Char.isDigit), natOfDigits frac, frac.length)
    else none
  | _ => none

/-- The comparison num_val < 100 on the exact value: since the fractional
part is below one, the value is below a whole bound iff its integer part
is. -/
def floatLtNat (v : Nat × Nat × Nat) (bound : Nat) : Bool :=
  v.1 < bound

/-- The comparison num_val > 2030 on the exact value: the value exceeds a
whole bound iff its integer part does, or equals it with a nonzero
fractional numerator. -/
def floatGtNat (v : Nat × Nat × Nat) (bound : Nat) : Bool :=
  bound < v.1 || (v.1 = bound && v.2.1 ≠ 0)

/-- Exact rational value of a parsed numeric token. -/
def ratValue (v : Nat × Nat × Nat) : ℚ :=
  v.1 + (v.2.1 : ℚ) / 10 ^ v.2.2

/-- The body of the loop in GuardrailsChecker._contains_specific_numbers for
a single token: the token is flagged when it is absent from the source
content and parses to a value v with neither v < 100 nor v > 2030; a token
that does not parse (ValueError) or whose value lies outside that band is
passed over by the continue statements. -/
def flagsNumber (source_content : String) (tok : List Char) : Bool :=
  if decide (tok <:+: source_content.data) then false
  else
    match parseFloat? (stripCommas tok) with
    | none => false
    | some v =>
      if floatLtNat v 100 || floatGtNat v 2030 then false
      else true

/-- GuardrailsChecker._contains_specific_numbers. -/
def contains_specific_numbers (answer : String) (source_content : String) : Bool :=
  let answer_numbers := findNumbers answer.data
  if answer_numbers = [] then false
  else answer_numbers.any (flagsNumber source_content)

/-- The lower cased concatenation of the source contents, joined by single
spaces: the source_content local of GuardrailsChecker.validate_answer. -/
def sourceContent (sources : List Doc) : String :=
  lowerStr (joinSpace (sources.map Doc.page_content))

/-- GuardrailsChecker.validate_answer. -/
def validate_answer (answer : String) (sources : List Doc) : Bool :=
  if sources = [] then false
  else if fabrication_indicators.any
      (fun ind => strContains (lowerStr answer) ind &&
        !strContains (sourceContent sources) ind) then
    false
  else if contains_specific_numbers answer (sourceContent sources) then false
  else true

/-- GuardrailsChecker.should_refuse_sensitive. -/
def should_refuse_sensitive (is_sensitive has_facts : Bool) : Bool :=
  is_sensitive && !has_facts

/-- GuardrailsChecker.get_refusal_message. -/
def get_refusal_message (question_type : String) : String :=
  if question_type = "sensitive" then
    "I cannot provide information about pricing, warranty, or technical specifications as this information is not available in my reliable sources."
  else if question_type = "insufficient_info" then
    "I don't have enough information to answer this question safely."
  else if question_type = "validation_failed" then
    "I cannot provide a reliable answer based on the available sources. Please try rephrasing your question or ask about topics covered in the reliable documentation."
  else
    "I cannot provide information on this topic."

/-! ## Pipeline (src/pipeline/rag_pipeline.py)

The two vector stores are modelled by the similarity search functions they
provide once built (the top k bound of the query is folded into the
function); a store that is not built is none.  The generation service is a
function from the question and the combined sources to either an answer or
an exception. -/

/-- The collaborators a RAGPipeline instance holds: the two optional vector
stores of its DocumentProcessor and the generation model. -/
structure RAGPipeline where
  facts_vectorstore : Option (String → List Doc)
  external_vectorstore : Option (String → List Doc)
  llm : String → List Doc → Except Unit String

/-- RAGPipeline._retrieve_facts: query the facts store, record the result,
and decide whether external sources are needed (they are, unless some
retrieved document has a stripped content longer than 50 characters). -/
def retrieve_facts (p : RAGPipeline) (s : RAGState) : RAGState :=
  match p.facts_vectorstore with
  | some search =>
    if !(search s.question).isEmpty &&
        (search s.question).any (fun d => (pyStrip d.page_content).length > 50) then
      { s with retrieved_facts := search s.question, needs_external := false }
    else
      { s with retrieved_facts := search s.question, needs_external := true }
  | none =>
    { s with retrieved_facts := [], needs_external := true }

/-- RAGPipeline._check_sensitivity. -/
def check_sensitivity (s : RAGState) : RAGState :=
  { s with is_sensitive := is_sensitive_question s.question }

/-- RAGPipeline._retrieve_external together with a flag recording whether
the external store's similarity search was actually invoked. -/
def retrieve_external_call (p : RAGPipeline) (s : RAGState) : RAGState × Bool :=
  if s.needs_external && !s.is_sensitive then
    match p.external_vectorstore with
    | some search => ({ s with retrieved_external := search s.question }, true)
    | none => ({ s with retrieved_external := [] }, false)
  else
    ({ s with retrieved_external := [] }, false)

/-- RAGPipeline._retrieve_external. -/
def retrieve_external (p : RAGPipeline) (s : RAGState) : RAGState :=
  (retrieve_external_call p s).1

/-- RAGPipeline._extract_citations. -/
def extract_citations (sources : List Doc) : List Citation :=
  sources.map (fun d => ⟨d.metadata.source, d.metadata.doc_id, d.metadata.chunk_id⟩)

/-- RAGPipeline._generate_answer: the decision tree over the combined
sources.  The try block around the generation call maps any generation
exception to the error status. -/
def generate_answer (p : RAGPipeline) (s : RAGState) : RAGState :=
  if s.retrieved_facts ++ s.retrieved_external = [] then
    { s with answer := get_refusal_message "insufficient_info",
             status := "insufficient_info", citations := [] }
  else if should_refuse_sensitive s.is_sensitive (!s.retrieved_facts.isEmpty) then
    { s with answer := get_refusal_message "sensitive",
             status := "refused_sensitive", citations := [] }
  else
    match p.llm s.question (s.retrieved_facts ++ s.retrieved_external) with
    | .error _ =>
      { s with answer := "I encountered an error while processing your question.",
               status := "error", citations := [] }
    | .ok answer =>
      if validate_answer answer (s.retrieved_facts ++ s.retrieved_external) then
        { s with answer := answer, status := "answered",
                 citations := extract_citations (s.retrieved_facts ++ s.retrieved_external) }
      else
        { s with answer := get_refusal_message "validation_failed",
                 status := "validation_failed", citations := [] }

/-- The initial RAGState built inside RAGPipeline.ask. -/
def initialState (question : String) : RAGState :=
  { question := question, retrieved_facts := [], retrieved_external := [],
    answer := "", citations := [], status := "processing",
    needs_external := false, is_sensitive := false }

/-- The compiled LangGraph: the four nodes in their linear edge order. -/
def runGraph (p : RAGPipeline) (q : String) : RAGState :=
  generate_answer p (retrieve_external p (check_sensitivity (retrieve_facts p (initialState q))))

/-- RAGPipeline.ask, with the vectorstores_ready flag passed explicitly. -/
def ask (p : RAGPipeline) (vectorstores_ready : Bool) (question : String) : AnswerResponse :=
  if !vectorstores_ready then
    { answer := "Vectorstores not initialized. Please call /embed endpoint first.",
      status := "not_ready", citations := [] }
  else
    let final_state := runGraph p question
    { answer := final_state.answer, status := final_state.status,
      citations := final_state.citations }

/-! ## Document chunking (src/processing/document_processor.py) -/

/-- DocumentProcessor._create_document_chunks, parameterised by the text
splitter (an external langchain collaborator).  Content longer than the
configured chunk size is split; a sub chunk is kept only when its stripped
length exceeds 20 characters, and the kept sub chunk at 0 based enumerate
position j carries chunk id "c" followed by j + 1. -/
def create_document_chunks (split : String → List String)
    (content : String) (base_metadata : Meta) : List Doc :=
  if content.length > chunk_size then
    (split content).enum.filterMap (fun p =>
      if (pyStrip p.2).length > 20 then
        some ⟨p.2, { base_metadata with chunk_id := "c" ++ toString (p.1 + 1) }⟩
      else none)
  else
    [⟨content, base_metadata⟩]

/-! ## Batched vector store construction (document_processor.py)

A vector store under construction is the list of documents it contains.
The embedding service calls that can raise are oracles: init_fail stands
for a failure of the initial FAISS.from_documents call, and batch_fail j
for a failure of the add_texts call on the j-th batch of the remaining
documents (0 based).  Every time.sleep is recorded, in order, in a list of
whole second pause lengths. -/

/-- Successive slices documents[i : i + bs] for i = 0, bs, 2 bs, ...; the
fuel argument is set to the list length by chunksOf, which suffices
whenever bs is positive. -/
def chunksOfAux (bs : Nat) : Nat → List Doc → List (List Doc)
  | 0, _ => []
  | _ + 1, [] => []
  | fuel + 1, l => l.take bs :: chunksOfAux bs fuel (l.drop bs)

/-- The batches the Python range loop iterates over. -/
def chunksOf (bs : Nat) (l : List Doc) : List (List Doc) :=
  chunksOfAux bs l.length l

/-- The loop over the remaining batches: on success the batch is appended
to the store and, when further batches remain, the loop pauses for
retry_delay; on failure the loop pauses for twice retry_delay and
continues with the next batch, dropping the failed batch. -/
def addBatches (batch_fail : Nat → Bool) : Nat → List Doc → List (List Doc) →
    List Doc × List Nat
  | _, store, [] => (store, [])
  | j, store, batch :: rest =>
    if batch_fail j then
      let r := addBatches batch_fail (j + 1) store rest
      (r.1, 2 * retry_delay :: r.2)
    else
      let r := addBatches batch_fail (j + 1) (store ++ batch) rest
      (r.1, (if rest.isEmpty then [] else [retry_delay]) ++ r.2)

/-- The documents kept by the batch loop from a given batch index on: a
batch whose insert fails contributes nothing, every other batch
contributes its documents in order. -/
def keptJoin (batch_fail : Nat → Bool) : Nat → List (List Doc) → List Doc
  | _, [] => []
  | j, batch :: rest =>
    (if batch_fail j then [] else batch) ++ keptJoin batch_fail (j + 1) rest

/-- DocumentProcessor._create_vectorstore_batched: build from a first batch
of at most batch_size documents, then add the remaining documents batch by
batch; a failure of the initial construction is caught by the outer try
and yields no store at all. -/
def create_vectorstore_batched (init_fail : Bool) (batch_fail : Nat → Bool)
    (documents : List Doc) : Option (List Doc) × List Nat :=
  if documents = [] then (none, [])
  else if init_fail then (none, [])
  else
    (some (addBatches batch_fail 0
        (documents.take (min batch_size documents.length))
        (chunksOf (min batch_size documents.length)
          (documents.drop (min batch_size documents.length)))).1,
      (addBatches batch_fail 0
        (documents.take (min batch_size documents.length))
        (chunksOf (min batch_size documents.length)
          (documents.drop (min batch_size documents.length)))).2)

/-! ## Cache manager (document_processor.py, create_vectorstores)

The DocumentProcessor's mutable store fields and the on disk cache are
modelled explicitly.  A cache slot is none when the cache directory entry
does not exist; when it exists, loading it either succeeds with the stored
documents or fails (a corrupt artifact), in which case the code overwrites
the in memory store with None. -/

/-- The two vector store fields of a DocumentProcessor. -/
structure DPState where
  facts_vectorstore : Option (List Doc)
  external_vectorstore : Option (List Doc)
deriving DecidableEq, Repr

/-- The on disk cache: for each kind, none when the artifact is absent,
some none when it exists but fails to load, some (some docs) when loading
succeeds and yields docs. -/
structure CacheState where
  facts : Option (Option (List Doc))
  external : Option (Option (List Doc))
deriving DecidableEq, Repr

/-- DocumentProcessor._load_from_cache: an existing artifact overwrites the
in memory store with its load result (possibly None on a load failure); an
absent artifact leaves the store untouched. -/
def load_from_cache (s : DPState) (c : CacheState) : DPState :=
  { facts_vectorstore :=
      match c.facts with
      | none => s.facts_vectorstore
      | some r => r,
    external_vectorstore :=
      match c.external with
      | none => s.external_vectorstore
      | some r => r }

/-- DocumentProcessor._save_to_cache: save the present stores in order
inside one try block, so a failing facts save also skips the external
save; failures leave the cache as it was. -/
def save_to_cache (s : DPState) (c : CacheState)
    (facts_save_fail external_save_fail : Bool) : CacheState :=
  match s.facts_vectorstore with
  | some f =>
    if facts_save_fail then c
    else
      let c1 := { c with facts := some (some f) }
      match s.external_vectorstore with
      | some e => if external_save_fail then c1 else { c1 with external := some (some e) }
      | none => c1
  | none =>
    match s.external_vectorstore with
    | some e => if external_save_fail then c else { c with external := some (some e) }
    | none => c

/-- The environment of one create_vectorstores invocation: the results of
the two document loaders, whether the external source file exists, and the
failure oracles of the embedding service and of the cache saves. -/
structure BuildEnv where
  facts_docs : List Doc
  external_docs : List Doc
  external_file_exists : Bool
  facts_build_fail : Bool
  ext_init_fail : Bool
  ext_batch_fail : Nat → Bool
  facts_save_fail : Bool
  external_save_fail : Bool

/-- DocumentProcessor._create_vectorstores_from_scratch: loading no facts
documents raises a ValueError, a failing facts build re-raises; otherwise
the facts store is rebuilt and, when external documents exist, the
external store is rebuilt batched. -/
def create_vectorstores_from_scratch (env : BuildEnv) (s : DPState) :
    Except String DPState :=
  if env.facts_docs = [] then .error "No facts documents loaded"
  else if env.facts_build_fail then .error "facts vector store build failed"
  else
    let s1 := { s with facts_vectorstore := some env.facts_docs }
    if env.external_docs ≠ [] then
      .ok { s1 with external_vectorstore :=
              (create_vectorstore_batched env.ext_init_fail env.ext_batch_fail
                env.external_docs).1 }
    else .ok s1

/-- The body of the elif branch of create_vectorstores: rebuild only the
external store (batched) when external documents were loaded. -/
def rebuild_external (env : BuildEnv) (s1 : DPState) : DPState :=
  if env.external_docs ≠ [] then
    { s1 with external_vectorstore :=
        (create_vectorstore_batched env.ext_init_fail env.ext_batch_fail
          env.external_docs).1 }
  else s1

/-- DocumentProcessor.create_vectorstores: try the cache, rebuild what is
still missing, then save.  The boolean in the result records whether a
rebuild branch ran. -/
def create_vectorstores (env : BuildEnv) (s : DPState) (c : CacheState) :
    Except String (DPState × CacheState × Bool) :=
  if (load_from_cache s c).facts_vectorstore = none then
    match create_vectorstores_from_scratch env (load_from_cache s c) with
    | .error e => .error e
    | .ok s2 =>
      .ok (s2, save_to_cache s2 c env.facts_save_fail env.external_save_fail, true)
  else if (load_from_cache s c).external_vectorstore = none ∧
      env.external_file_exists = true then
    .ok (rebuild_external env (load_from_cache s c),
      save_to_cache (rebuild_external env (load_from_cache s c)) c
        env.facts_save_fail env.external_save_fail, true)
  else
    .ok (load_from_cache s c,
      save_to_cache (load_from_cache s c) c
        env.facts_save_fail env.external_save_fail, false)

/-! ## Concrete fixtures used by witnesses and counterexamples -/

/-- A source passage whose text contains no digits and no fabrication
indicator; its stripped length is 44, below the 50 character coverage
threshold. -/
def blueDoc : Doc :=
  ⟨"the car has a blue exterior and a long range", ⟨"facts", "F1", "c1"⟩⟩

/-- A source passage whose stripped length is 67, above the 50 character
coverage threshold. -/
def bigDoc : Doc :=
  ⟨"the vehicle offers a spacious interior with a panoramic glass roof", ⟨"facts", "F2", "c2"⟩⟩

/-- A pipeline whose facts store is built but returns nothing, with a built
external store and a generation service that succeeds. -/
def c1Pipeline : RAGPipeline :=
  ⟨some (fun _ => []), some (fun _ => [blueDoc]), fun _ _ => .ok "Fine."⟩

/-- A pipeline whose facts store always returns the substantive passage. -/
def c5Pipeline : RAGPipeline :=
  ⟨some (fun _ => [bigDoc]), some (fun _ => []), fun _ _ => .ok "Fine."⟩

/-- A splitter stub standing for the external text splitter: its middle
chunk strips to exactly 20 characters. -/
def extSplit : String → List String :=
  fun _ => ["chunk number one is long enough!",
            "abcdefghijklmnopqrst",
            "chunk number three is long enough"]

/-- A transcript longer than the configured chunk size, so the splitter is
consulted. -/
def extContent : String := ⟨List.replicate 801 'a'⟩

/-- Metadata of the external record that owns the sub chunks. -/
def extMeta : Meta := ⟨"external", "E1", "c1"⟩

/-- Sample documents for the batched builder. -/
def sampleDoc (n : Nat) : Doc :=
  ⟨"document content number " ++ toString n, ⟨"external", "E" ++ toString n, "c1"⟩⟩

/-- Forty five documents: a first batch of twenty and two remaining batches
of twenty and five. -/
def c8Docs : List Doc := (List.range 45).map sampleDoc

/-- A build environment with no failures, no external documents, and an
existing external source file. -/
def c9Env : BuildEnv := ⟨[blueDoc], [], true, false, false, fun _ => false, false, false⟩

/-- A DocumentProcessor whose two stores are Ready. -/
def c9State : DPState := ⟨some [blueDoc], some [bigDoc]⟩

/-- A cache whose facts artifact holds the Ready facts contents and whose
external artifact is absent. -/
def c9Cache : CacheState := ⟨some (some [blueDoc]), none⟩

/-! ## Helper lemmas -/

theorem strContains_true_iff (hay needle : String) :
    strContains hay needle = true ↔ needle.data <:+: hay.data := by
  simp [strContains]

theorem char_toLower_idem (c : Char) : c.toLower.toLower = c.toLower := by
  by_cases h : c.toNat ≥ 65 ∧ c.toNat ≤ 90
  · have hv : (c.toNat + 32).isValidChar := Or.inl (by omega)
    have ht : (Char.ofNat (c.toNat + 32)).toNat = c.toNat + 32 := by
      simp only [Char.ofNat, hv, dif_pos]
      rfl
    have h2 : ¬((c.toNat + 32) ≥ 65 ∧ (c.toNat + 32) ≤ 90) := by omega
    simp [Char.toLower, h, ht, h2]
    intro h3 h4
    exact absurd h4 (by omega)
  · simp [Char.toLower, h]

theorem lowerStr_idem (s : String) : lowerStr (lowerStr s) = lowerStr s := by
  unfold lowerStr
  refine congrArg String.mk ?_
  rw [List.map_map]
  exact List.map_congr_left fun c _ => char_toLower_idem c

theorem topics_lower_fixed : ∀ t ∈ sensitive_topics, lowerStr t = t := by
  intro t ht
  fin_cases ht <;> decide

theorem mem_enum_iff {α : Type} {l : List α} {i : Nat} {a : α} :
    (i, a) ∈ l.enum ↔ l[i]? = some a := by
  rw [List.mem_iff_getElem?]
  constructor
  · rintro ⟨n, hn⟩
    rw [List.getElem?_enum] at hn
    cases h : l[n]? with
    | none =>
      rw [h] at hn
      exact absurd hn (by simp)
    | some b =>
      rw [h] at hn
      simp only [Option.map_some', Option.some.injEq, Prod.mk.injEq] at hn
      obtain ⟨rfl, rfl⟩ := hn
      exact h
  · intro h
    refine ⟨i, ?_⟩
    rw [List.getElem?_enum, h]
    rfl

/-! ## C6: sensitivity classification -/

/-- C6: classifySensitivity is case insensitive (classifying a question and
its lower cased form agree), monotonic (inserting an occurrence of a
configured sensitive topic into an already sensitive question keeps it
sensitive), and holds exactly when the lower cased question contains some
configured sensitive topic substring. -/
theorem c6_sensitivity_case_insensitive_monotonic :
    (∀ q : String, is_sensitive_question q = is_sensitive_question (lowerStr q))
    ∧ (∀ u v t : String, t ∈ sensitive_topics →
        is_sensitive_question (u ++ v) = true →
        is_sensitive_question (u ++ t ++ v) = true)
    ∧ (∀ q : String, is_sensitive_question q = true ↔
        ∃ t ∈ sensitive_topics, t.data <:+: (lowerStr q).data) := by
  refine ⟨?_, ?_, ?_⟩
  · intro q
    unfold is_sensitive_question
    rw [lowerStr_idem]
  · intro u v t ht _
    unfold is_sensitive_question
    rw [List.any_eq_true]
    refine ⟨t, ht, ?_⟩
    rw [strContains_true_iff]
    have hfix : t.data.map Char.toLower = t.data :=
      congrArg String.data (topics_lower_fixed t ht)
    have hdata : (lowerStr (u ++ t ++ v)).data =
        u.data.map Char.toLower ++ t.data ++ v.data.map Char.toLower := by
      show (u ++ t ++ v).data.map Char.toLower = _
      rw [String.data_append, String.data_append, List.map_append, List.map_append, hfix]
    rw [hdata]
    exact List.infix_append _ _ _
  · intro q
    unfold is_sensitive_question
    rw [List.any_eq_true]
    constructor
    · rintro ⟨t, ht, hc⟩
      exact ⟨t, ht, (strContains_true_iff _ _).mp hc⟩
    · rintro ⟨t, ht, hc⟩
      exact ⟨t, ht, (strContains_true_iff _ _).mpr hc⟩

/-- Witness for C6: inserting the topic "warranty" into the sensitive
question "the price of it" keeps it sensitive. -/
theorem c6_sensitivity_case_insensitive_monotonic_witness :
    is_sensitive_question ("the price of " ++ "warranty" ++ "it") = true :=
  c6_sensitivity_case_insensitive_monotonic.2.1 "the price of " "it" "warranty"
    (by decide) (by decide)

/-! ## C3 and C4: the numeric fabrication check -/

theorem isDigit_toNat_bounds {c : Char} (h : c.isDigit = true) :
    48 ≤ c.toNat ∧ c.toNat ≤ 57 := by
  simp only [Char.isDigit, Bool.and_eq_true, decide_eq_true_eq] at h
  exact ⟨h.1, h.2⟩

theorem natOfDigits_foldl_bound (l : List Char) :
    ∀ a : Nat, l.all Char.isDigit = true →
      List.foldl (fun a c => a * 10 + (c.toNat - '0'.toNat)) a l < (a + 1) * 10 ^ l.length := by
  induction l with
  | nil =>
    intro a _
    simp only [List.foldl_nil, List.length_nil, pow_zero, mul_one]
    exact Nat.lt_succ_self a
  | cons c cs ih =>
    intro a h
    rw [List.all_cons, Bool.and_eq_true] at h
    have hd : c.toNat - '0'.toNat ≤ 9 := by
      have h57 := (isDigit_toNat_bounds h.1).2
      have h48 : '0'.toNat = 48 := rfl
      omega
    calc List.foldl (fun a c => a * 10 + (c.toNat - '0'.toNat))
          (a * 10 + (c.toNat - '0'.toNat)) cs
        < (a * 10 + (c.toNat - '0'.toNat) + 1) * 10 ^ cs.length := ih _ h.2
      _ ≤ ((a + 1) * 10) * 10 ^ cs.length := by
          have : a * 10 + (c.toNat - '0'.toNat) + 1 ≤ (a + 1) * 10 := by omega
          exact Nat.mul_le_mul_right _ this
      _ = (a + 1) * 10 ^ (c :: cs).length := by
          rw [List.length_cons, pow_succ]
          ring

theorem natOfDigits_lt (l : List Char) (h : l.all Char.isDigit = true) :
    natOfDigits l < 10 ^ l.length := by
  have := natOfDigits_foldl_bound l 0 h
  simpa [natOfDigits] using this

theorem parseFloat?_frac_lt {l : List Char} {v : Nat × Nat × Nat}
    (h : parseFloat? l = some v) : v.2.1 < 10 ^ v.2.2 := by
  unfold parseFloat? at h
  split at h
  · split at h
    · exact absurd h (by simp)
    · obtain rfl := (Option.some.injEq _ _).mp h.symm
      norm_num
  · rename_i frac _
    split at h
    · rename_i hcond
      obtain rfl := (Option.some.injEq _ _).mp h.symm
      exact natOfDigits_lt frac hcond.2
    · exact absurd h (by simp)
  · exact absurd h (by simp)

theorem ratValue_frac_bounds {v : Nat × Nat × Nat} (hfrac : v.2.1 < 10 ^ v.2.2) :
    (v.1 : ℚ) ≤ ratValue v ∧ ratValue v < v.1 + 1 := by
  have hpow : (0 : ℚ) < 10 ^ v.2.2 := by positivity
  constructor
  · have : (0 : ℚ) ≤ (v.2.1 : ℚ) / 10 ^ v.2.2 := by positivity
    unfold ratValue; linarith
  · have hlt : (v.2.1 : ℚ) / 10 ^ v.2.2 < 1 := by
      rw [div_lt_one hpow]
      exact_mod_cast hfrac
    unfold ratValue; linarith

theorem floatLtNat_true_iff {v : Nat × Nat × Nat} (hfrac : v.2.1 < 10 ^ v.2.2)
    (bound : Nat) : floatLtNat v bound = true ↔ ratValue v < bound := by
  obtain ⟨hlo, hhi⟩ := ratValue_frac_bounds hfrac
  unfold floatLtNat
  rw [decide_eq_true_eq]
  constructor
  · intro h
    have : (v.1 : ℚ) + 1 ≤ bound := by exact_mod_cast h
    linarith
  · intro h
    by_contra hc
    have hb : (bound : ℚ) ≤ v.1 := by exact_mod_cast Nat.le_of_not_lt hc
    linarith

theorem floatGtNat_true_iff {v : Nat × Nat × Nat} (hfrac : v.2.1 < 10 ^ v.2.2)
    (bound : Nat) : floatGtNat v bound = true ↔ (bound : ℚ) < ratValue v := by
  obtain ⟨hlo, hhi⟩ := ratValue_frac_bounds hfrac
  have hpow : (0 : ℚ) < 10 ^ v.2.2 := by positivity
  unfold floatGtNat
  simp only [Bool.or_eq_true, Bool.and_eq_true, decide_eq_true_eq]
  constructor
  · rintro (h | ⟨h1, h2⟩)
    · have : (bound : ℚ) + 1 ≤ v.1 := by exact_mod_cast h
      linarith
    · have hfq : (0 : ℚ) < (v.2.1 : ℚ) / 10 ^ v.2.2 := by
        apply div_pos _ hpow
        exact_mod_cast Nat.pos_of_ne_zero h2
      unfold ratValue
      rw [h1]
      linarith
  · intro h
    rcases Nat.lt_trichotomy bound v.1 with hb | hb | hb
    · exact Or.inl hb
    · refine Or.inr ⟨hb.symm, ?_⟩
      intro hz
      have : ratValue v = v.1 := by unfold ratValue; rw [hz]; push_cast; ring
      rw [this, hb] at h
      exact lt_irrefl _ h
    · exfalso
      have : (v.1 : ℚ) + 1 ≤ bound := by exact_mod_cast hb
      linarith

theorem flagsNumber_true_iff (sc : String) (tok : List Char) :
    flagsNumber sc tok = true ↔
      ¬ (tok <:+: sc.data) ∧
        ∃ v, parseFloat? (stripCommas tok) = some v ∧
          100 ≤ ratValue v ∧ ratValue v ≤ 2030 := by
  by_cases hm : tok <:+: sc.data
  · simp [flagsNumber, hm]
  · cases hp : parseFloat? (stripCommas tok) with
    | none => simp [flagsNumber, hm, hp]
    | some v =>
      have hfrac := parseFloat?_frac_lt hp
      have hlt := floatLtNat_true_iff hfrac 100
      have hgt := floatGtNat_true_iff hfrac 2030
      have hL : flagsNumber sc tok =
          (if floatLtNat v 100 || floatGtNat v 2030 then false else true) := by
        simp [flagsNumber, hm, hp]
      rw [hL]
      constructor
      · intro h
        have h1 : floatLtNat v 100 = false := by
          cases h1 : floatLtNat v 100 with
          | false => rfl
          | true => rw [h1] at h; exact absurd h (by simp)
        have h2 : floatGtNat v 2030 = false := by
          cases h2 : floatGtNat v 2030 with
          | false => rfl
          | true => rw [h2] at h; exact absurd h (by simp)
        refine ⟨hm, v, rfl, ?_, ?_⟩
        · have hnot : ¬ ratValue v < ((100 : Nat) : ℚ) := by
            intro hx
            have := hlt.mpr hx
            rw [h1] at this
            exact Bool.noConfusion this
          have := not_lt.mp hnot
          push_cast at this
          exact this
        · have hnot : ¬ ((2030 : Nat) : ℚ) < ratValue v := by
            intro hx
            have := hgt.mpr hx
            rw [h2] at this
            exact Bool.noConfusion this
          have := not_lt.mp hnot
          push_cast at this
          exact this
      · rintro ⟨-, v', hv', h100, h2030⟩
        have hvv : v = v' := Option.some.inj (hp ▸ hv')
        subst hvv
        have h1 : floatLtNat v 100 = false := by
          cases h1 : floatLtNat v 100 with
          | false => rfl
          | true =>
            have := hlt.mp h1
            push_cast at this
            exact absurd this (by linarith)
        have h2 : floatGtNat v 2030 = false := by
          cases h2 : floatGtNat v 2030 with
          | false => rfl
          | true =>
            have := hgt.mp h2
            push_cast at this
            exact absurd this (by linarith)
        rw [h1, h2]
        rfl

/-- C3 (amended): the numeric check of validateAnswer flags exactly those
numeric tokens of the answer that are absent from the concatenated source
text, parse as a number, and lie inside the inclusive range [100, 2030];
a parseable token whose value lies outside that range is never flagged, and
a flagged token makes validateAnswer fail.  (The claim as frozen states the
inverse range test; see the counterexample.) -/
theorem c3_numeric_check_characterisation :
    ∀ (answer : String) (sources : List Doc), sources ≠ [] →
    (contains_specific_numbers answer (sourceContent sources) = true ↔
      ∃ tok ∈ findNumbers answer.data,
        ¬ (tok <:+: (sourceContent sources).data) ∧
        ∃ v, parseFloat? (stripCommas tok) = some v ∧
          100 ≤ ratValue v ∧ ratValue v ≤ 2030)
    ∧ (∀ (tok : List Char) (v : Nat × Nat × Nat),
        parseFloat? (stripCommas tok) = some v →
        (ratValue v < 100 ∨ 2030 < ratValue v) →
        flagsNumber (sourceContent sources) tok = false)
    ∧ (contains_specific_numbers answer (sourceContent sources) = true →
        validate_answer answer sources = false) := by
  intro answer sources hsrc
  refine ⟨?_, ?_, ?_⟩
  · unfold contains_specific_numbers
    cases hn : findNumbers answer.data with
    | nil => simp
    | cons a l =>
      rw [if_neg (by simp)]
      rw [List.any_eq_true]
      constructor
      · rintro ⟨tok, htok, hflag⟩
        exact ⟨tok, htok, (flagsNumber_true_iff _ _).mp hflag⟩
      · rintro ⟨tok, htok, hprop⟩
        exact ⟨tok, htok, (flagsNumber_true_iff _ _).mpr hprop⟩
  · intro tok v hv hrange
    rw [Bool.eq_false_iff]
    intro hflag
    obtain ⟨-, v', hv', h100, h2030⟩ := (flagsNumber_true_iff _ _).mp hflag
    have hvv : v = v' := Option.some.inj (hv ▸ hv')
    subst hvv
    rcases hrange with h | h
    · linarith
    · linarith
  · intro hcontains
    unfold validate_answer
    rw [if_neg hsrc]
    split
    · rfl
    · simp [hcontains]

/-- Witness for C3 (amended): the token 5000 parses to the value 5000,
outside [100, 2030], and is therefore never flagged. -/
theorem c3_numeric_check_characterisation_witness :
    flagsNumber (sourceContent [blueDoc]) "5000".data = false :=
  (c3_numeric_check_characterisation "The value is 5000." [blueDoc]
      (by decide)).2.1 "5000".data (5000, 0, 0) (by decide)
    (Or.inr (by norm_num [ratValue]))

/-- Counterexample to C3 as frozen: with a source that contains no digits,
the claim predicts that the token 5000 (outside [100, 2030] and absent) is
flagged so validation fails, and that the token 1500 (inside [100, 2030]
and absent) is never flagged so validation passes; the code does exactly
the reverse. -/
theorem c3_counterexample :
    strContains (sourceContent [blueDoc]) "5000" = false ∧
    validate_answer "The value is 5000." [blueDoc] = true ∧
    strContains (sourceContent [blueDoc]) "1500" = false ∧
    validate_answer "The value is 1500." [blueDoc] = false := by decide

/-- C4 evaluated on the code: the year token 2021, absent from the sources,
makes validateAnswer fail, although the claim (and the comment in
_contains_specific_numbers about skipping years) says it passes; the 1500
half of the claim does hold. -/
theorem c4_year_token_fails_validation :
    validate_answer "The launch year was 2021." [blueDoc] = false ∧
    validate_answer "The value is 1500." [blueDoc] = false := by decide

/-! ## Pipeline stage lemmas -/

theorem retrieve_facts_question (p : RAGPipeline) (s : RAGState) :
    (retrieve_facts p s).question = s.question := by
  unfold retrieve_facts
  split
  · split <;> rfl
  · rfl

theorem retrieve_facts_external (p : RAGPipeline) (s : RAGState) :
    (retrieve_facts p s).retrieved_external = s.retrieved_external := by
  unfold retrieve_facts
  split
  · split <;> rfl
  · rfl

theorem retrieve_external_is_sensitive (p : RAGPipeline) (s : RAGState) :
    (retrieve_external p s).is_sensitive = s.is_sensitive := by
  unfold retrieve_external retrieve_external_call
  split
  · split <;> rfl
  · rfl

theorem retrieve_external_facts (p : RAGPipeline) (s : RAGState) :
    (retrieve_external p s).retrieved_facts = s.retrieved_facts := by
  unfold retrieve_external retrieve_external_call
  split
  · split <;> rfl
  · rfl

theorem retrieve_external_empty_of_sensitive (p : RAGPipeline) (s : RAGState)
    (h : s.is_sensitive = true) :
    (retrieve_external p s).retrieved_external = [] := by
  unfold retrieve_external retrieve_external_call
  rw [h]
  simp

theorem generate_answer_not_refused (p : RAGPipeline) (s : RAGState)
    (h : s.is_sensitive = true → s.retrieved_external = []) :
    (generate_answer p s).status ≠ "refused_sensitive" := by
  unfold generate_answer
  split
  · simp
  · split
    · rename_i h1 h2
      exfalso
      unfold should_refuse_sensitive at h2
      rw [Bool.and_eq_true] at h2
      obtain ⟨ha, hb⟩ := h2
      have hfacts : s.retrieved_facts = [] := by
        have : s.retrieved_facts.isEmpty = true := by
          cases hie : s.retrieved_facts.isEmpty with
          | true => rfl
          | false => rw [hie] at hb; exact absurd hb (by decide)
        exact List.isEmpty_iff.mp this
      have hext := h ha
      exact h1 (by rw [hfacts, hext]; rfl)
    · split
      · simp
      · split
        · simp
        · simp

theorem generate_answer_shape (p : RAGPipeline) (s : RAGState) :
    ((generate_answer p s).status = "insufficient_info" ∨
     (generate_answer p s).status = "refused_sensitive" ∨
     (generate_answer p s).status = "error" ∨
     (generate_answer p s).status = "answered" ∨
     (generate_answer p s).status = "validation_failed") ∧
    ((generate_answer p s).status ≠ "answered" → (generate_answer p s).citations = []) := by
  unfold generate_answer
  split
  · exact ⟨Or.inl rfl, fun _ => rfl⟩
  · split
    · exact ⟨Or.inr (Or.inl rfl), fun _ => rfl⟩
    · split
      · exact ⟨Or.inr (Or.inr (Or.inl rfl)), fun _ => rfl⟩
      · split
        · exact ⟨Or.inr (Or.inr (Or.inr (Or.inl rfl))), fun hc => absurd rfl hc⟩
        · exact ⟨Or.inr (Or.inr (Or.inr (Or.inr rfl))), fun _ => rfl⟩

/-! ## C2: the sensitive refusal status is unreachable -/

/-- C2: no run of ask ever ends with status refused_sensitive: the refusal
branch needs a nonempty combined passage list with empty authoritative
passages, but supplemental passages are only retrieved for non sensitive
questions, so the branch cannot be reached. -/
theorem c2_refused_sensitive_unreachable :
    ∀ (p : RAGPipeline) (ready : Bool) (q : String),
      (ask p ready q).status ≠ "refused_sensitive" := by
  intro p ready q
  cases ready with
  | false => simp [ask]
  | true =>
    show (generate_answer p
        (retrieve_external p (check_sensitivity (retrieve_facts p (initialState q))))).status ≠ _
    apply generate_answer_not_refused
    intro hs
    rw [retrieve_external_is_sensitive] at hs
    exact retrieve_external_empty_of_sensitive p _ hs

/-! ## C10: terminal status invariant -/

/-- C10: every response of ask carries one of the six terminal statuses
(the initial placeholder status processing never escapes), and the
citations list is empty whenever the status is not answered. -/
theorem c10_status_invariant :
    ∀ (p : RAGPipeline) (ready : Bool) (q : String),
      (ask p ready q).status ∈
        ["answered", "refused_sensitive", "insufficient_info",
         "validation_failed", "error", "not_ready"] ∧
      ((ask p ready q).status ≠ "answered" → (ask p ready q).citations = []) := by
  intro p ready q
  cases ready with
  | false =>
    refine ⟨?_, fun _ => rfl⟩
    show "not_ready" ∈ _
    simp
  | true =>
    have h := generate_answer_shape p
      (retrieve_external p (check_sensitivity (retrieve_facts p (initialState q))))
    have hs : (ask p true q).status =
        (generate_answer p
          (retrieve_external p (check_sensitivity (retrieve_facts p (initialState q))))).status := rfl
    have hc : (ask p true q).citations =
        (generate_answer p
          (retrieve_external p (check_sensitivity (retrieve_facts p (initialState q))))).citations := rfl
    constructor
    · rw [hs]
      rcases h.1 with h1 | h1 | h1 | h1 | h1 <;> rw [h1] <;> simp
    · rw [hs, hc]
      exact h.2

/-- Witness for C10: a not ready pipeline answers with empty citations. -/
theorem c10_status_invariant_witness :
    (ask c1Pipeline false "any question").citations = [] :=
  (c10_status_invariant c1Pipeline false "any question").2 (by decide)

/-! ## C1: sensitive question with empty authoritative retrieval -/

/-- C1 (amended): a question containing "price" whose authoritative
retrieval is empty ends with status insufficient_info (not
refused_sensitive: the empty combined sources branch fires first) and an
empty citations list. -/
theorem c1_price_empty_facts_insufficient_info :
    ∀ (p : RAGPipeline) (q : String),
      strContains (lowerStr q) "price" = true →
      (∀ f, p.facts_vectorstore = some f → f q = []) →
      (ask p true q).status = "insufficient_info" ∧
      (ask p true q).citations = [] := by
  intro p q hprice hempty
  have hsens : is_sensitive_question q = true := by
    unfold is_sensitive_question
    rw [List.any_eq_true]
    refine ⟨"price", by decide, hprice⟩
  have h1 : (retrieve_facts p (initialState q)).retrieved_facts = [] := by
    cases hf : p.facts_vectorstore with
    | none => simp [retrieve_facts, hf]
    | some f =>
      have hfq : f q = [] := hempty f hf
      simp [retrieve_facts, hf, initialState, hfq]
  have hq1 : (retrieve_facts p (initialState q)).question = q :=
    retrieve_facts_question p (initialState q)
  have hsens2 : (check_sensitivity (retrieve_facts p (initialState q))).is_sensitive = true := by
    show is_sensitive_question (retrieve_facts p (initialState q)).question = true
    rw [hq1]
    exact hsens
  have hext : (retrieve_external p (check_sensitivity (retrieve_facts p (initialState q)))).retrieved_external = [] :=
    retrieve_external_empty_of_sensitive p _ hsens2
  have hfacts : (retrieve_external p (check_sensitivity (retrieve_facts p (initialState q)))).retrieved_facts = [] := by
    rw [retrieve_external_facts]
    exact h1
  have hcond : (retrieve_external p (check_sensitivity (retrieve_facts p (initialState q)))).retrieved_facts ++
      (retrieve_external p (check_sensitivity (retrieve_facts p (initialState q)))).retrieved_external = [] := by
    rw [hext, hfacts]
    rfl
  have hgen : generate_answer p (retrieve_external p (check_sensitivity (retrieve_facts p (initialState q)))) =
      { retrieve_external p (check_sensitivity (retrieve_facts p (initialState q))) with
          answer := get_refusal_message "insufficient_info",
          status := "insufficient_info", citations := [] } := by
    unfold generate_answer
    rw [if_pos hcond]
  constructor
  · show (generate_answer p (retrieve_external p (check_sensitivity (retrieve_facts p (initialState q))))).status = _
    rw [hgen]
  · show (generate_answer p (retrieve_external p (check_sensitivity (retrieve_facts p (initialState q))))).citations = _
    rw [hgen]

/-- Witness for C1 (amended): the concrete pipeline whose facts store
returns nothing, asked a price question. -/
theorem c1_price_empty_facts_insufficient_info_witness :
    (ask c1Pipeline true "What is the price?").status = "insufficient_info" ∧
    (ask c1Pipeline true "What is the price?").citations = [] :=
  c1_price_empty_facts_insufficient_info c1Pipeline "What is the price?" (by decide)
    (fun f hf => by cases hf; rfl)

/-- Counterexample to C1 as frozen: a price question with empty
authoritative retrieval does not end refused_sensitive (it ends
insufficient_info). -/
theorem c1_counterexample :
    strContains (lowerStr "What is the price?") "price" = true ∧
    (retrieve_facts c1Pipeline (initialState "What is the price?")).retrieved_facts = [] ∧
    (ask c1Pipeline true "What is the price?").status = "insufficient_info" ∧
    (ask c1Pipeline true "What is the price?").status ≠ "refused_sensitive" := by
  decide

/-! ## C5: the supplemental retrieval gate -/

theorem retrieve_external_call_cases (p : RAGPipeline) (s : RAGState) :
    (retrieve_external_call p s).1.retrieved_external = [] ∨
    (retrieve_external_call p s).2 = true := by
  unfold retrieve_external_call
  split
  · split
    · exact Or.inr rfl
    · exact Or.inl rfl
  · exact Or.inl rfl

/-- C5: with a supplemental index present, its similarity search is invoked
exactly when needsSupplemental holds and the question is not sensitive;
when it is not invoked the supplemental result is empty; and when the
authoritative retrieval contains a passage whose stripped length exceeds 50
characters, needsSupplemental is false and the supplemental search is never
invoked in the pipeline run. -/
theorem c5_supplemental_gate :
    ∀ (p : RAGPipeline) (s : RAGState),
      (p.external_vectorstore.isSome = true →
        ((retrieve_external_call p s).2 = true ↔
          s.needs_external = true ∧ s.is_sensitive = false))
      ∧ ((retrieve_external_call p s).2 = false →
          (retrieve_external_call p s).1.retrieved_external = [])
      ∧ (∀ (f : String → List Doc) (q : String),
          p.facts_vectorstore = some f →
          (∃ d ∈ f q, 50 < (pyStrip d.page_content).length) →
          (retrieve_facts p (initialState q)).needs_external = false ∧
          (retrieve_external_call p
            (check_sensitivity (retrieve_facts p (initialState q)))).2 = false) := by
  intro p s
  refine ⟨?_, ?_, ?_⟩
  · intro hsome
    obtain ⟨f, hf⟩ := Option.isSome_iff_exists.mp hsome
    unfold retrieve_external_call
    rw [hf]
    cases hne : s.needs_external <;> cases hsen : s.is_sensitive <;> simp
  · intro hq
    rcases retrieve_external_call_cases p s with h | h
    · exact h
    · rw [h] at hq
      exact absurd hq (by decide)
  · rintro f q hf ⟨d, hd, hlen⟩
    have hneeds : (retrieve_facts p (initialState q)).needs_external = false := by
      have hany : (f q).any (fun d => decide ((pyStrip d.page_content).length > 50)) = true :=
        List.any_eq_true.mpr ⟨d, hd, decide_eq_true_eq.mpr hlen⟩
      have hni : (f q).isEmpty = false := by
        cases hie : (f q).isEmpty with
        | false => rfl
        | true =>
          rw [List.isEmpty_iff] at hie
          rw [hie] at hd
          exact absurd hd (List.not_mem_nil d)
      simp [retrieve_facts, hf, initialState, hni, hany]
    refine ⟨hneeds, ?_⟩
    have hneeds2 : (check_sensitivity (retrieve_facts p (initialState q))).needs_external = false :=
      hneeds
    unfold retrieve_external_call
    rw [hneeds2]
    simp

/-- Witness for C5: a pipeline whose facts store returns the substantive
passage never invokes the supplemental search. -/
theorem c5_supplemental_gate_witness :
    (retrieve_facts c5Pipeline (initialState "hello")).needs_external = false ∧
    (retrieve_external_call c5Pipeline
      (check_sensitivity (retrieve_facts c5Pipeline (initialState "hello")))).2 = false :=
  (c5_supplemental_gate c5Pipeline (initialState "hello")).2.2
    (fun _ => [bigDoc]) "hello" rfl ⟨bigDoc, by decide, by decide⟩

/-! ## C7: sub chunk dropping and chunk ids -/

/-- C7 (amended): when a record's content is split, a sub chunk survives
exactly when its stripped length exceeds 20 characters (a stripped length
of exactly 20 is dropped), and a surviving sub chunk at 0 based position j
among all sub chunks of the split (dropped ones included) carries chunk id
"c" followed by j + 1, so surviving chunk ids can skip numbers. -/
theorem c7_chunking_characterisation :
    ∀ (splitter : String → List String) (content : String) (base : Meta),
      content.length > chunk_size →
      (∀ d ∈ create_document_chunks splitter content base,
        20 < (pyStrip d.page_content).length ∧
        ∃ j, (splitter content)[j]? = some d.page_content ∧
          d.metadata = { base with chunk_id := "c" ++ toString (j + 1) })
      ∧ (∀ (j : Nat) (t : String), (splitter content)[j]? = some t →
          20 < (pyStrip t).length →
          (⟨t, { base with chunk_id := "c" ++ toString (j + 1) }⟩ : Doc) ∈
            create_document_chunks splitter content base) := by
  intro splitter content base hlen
  have hout : create_document_chunks splitter content base =
      (splitter content).enum.filterMap (fun p =>
        if (pyStrip p.2).length > 20 then
          some ⟨p.2, { base with chunk_id := "c" ++ toString (p.1 + 1) }⟩
        else none) := by
    unfold create_document_chunks
    rw [if_pos hlen]
  constructor
  · intro d hd
    rw [hout, List.mem_filterMap] at hd
    obtain ⟨⟨j, t⟩, hmem, hft⟩ := hd
    rw [mem_enum_iff] at hmem
    by_cases hlt : (pyStrip t).length > 20
    · rw [if_pos hlt] at hft
      obtain rfl := Option.some.inj hft
      exact ⟨hlt, j, hmem, rfl⟩
    · rw [if_neg hlt] at hft
      exact absurd hft (by simp)
  · intro j t hjt hlt
    rw [hout, List.mem_filterMap]
    refine ⟨(j, t), mem_enum_iff.mpr hjt, ?_⟩
    rw [if_pos hlt]

set_option maxRecDepth 8192 in
/-- Witness for C7 (amended): the first sub chunk of the fixture record
survives with chunk id "c1". -/
theorem c7_chunking_characterisation_witness :
    (⟨"chunk number one is long enough!",
      { extMeta with chunk_id := "c" ++ toString (0 + 1) }⟩ : Doc) ∈
      create_document_chunks extSplit extContent extMeta :=
  (c7_chunking_characterisation extSplit extContent extMeta (by decide)).2 0
    "chunk number one is long enough!" rfl (by decide)

set_option maxRecDepth 8192 in
/-- Counterexample to C7 as frozen: the middle sub chunk strips to exactly
20 characters; the claim predicts it survives and that survivors are
renumbered densely (ids "c1", "c2", "c3"), but the code drops it and the
second survivor keeps id "c3". -/
theorem c7_counterexample :
    extContent.length > chunk_size ∧
    (pyStrip "abcdefghijklmnopqrst").length = 20 ∧
    (create_document_chunks extSplit extContent extMeta).map
        (fun d => (d.page_content, d.metadata.chunk_id)) =
      [("chunk number one is long enough!", "c1"),
       ("chunk number three is long enough", "c3")] := by
  decide

/-! ## C8: batch failure resilience -/

theorem addBatches_fst (batch_fail : Nat → Bool) :
    ∀ (chunks : List (List Doc)) (j : Nat) (store : List Doc),
      (addBatches batch_fail j store chunks).1 = store ++ keptJoin batch_fail j chunks := by
  intro chunks
  induction chunks with
  | nil => intro j store; simp [addBatches, keptJoin]
  | cons b rest ih =>
    intro j store
    cases hf : batch_fail j with
    | true => simp [addBatches, keptJoin, hf, ih]
    | false => simp [addBatches, keptJoin, hf, ih, List.append_assoc]

theorem keptJoin_all_ok (batch_fail : Nat → Bool) :
    ∀ (chunks : List (List Doc)) (j : Nat),
      (∀ i, i < chunks.length → batch_fail (j + i) = false) →
      keptJoin batch_fail j chunks = chunks.flatten := by
  intro chunks
  induction chunks with
  | nil => intro j _; rfl
  | cons b rest ih =>
    intro j h
    have h0 : batch_fail j = false := by
      have := h 0 (by simp)
      simpa using this
    simp only [keptJoin, h0, List.flatten_cons]
    rw [if_neg (by simp)]
    congr 1
    apply ih
    intro i hi
    have := h (i + 1) (by simpa using Nat.succ_lt_succ hi)
    rw [show j + 1 + i = j + (i + 1) by omega]
    exact this

theorem keptJoin_eraseIdx (batch_fail : Nat → Bool) :
    ∀ (chunks : List (List Doc)) (j k : Nat), k < chunks.length →
      (∀ i, i < chunks.length → (batch_fail (j + i) = true ↔ i = k)) →
      keptJoin batch_fail j chunks = (chunks.eraseIdx k).flatten := by
  intro chunks
  induction chunks with
  | nil => intro j k hk _; exact absurd hk (by simp)
  | cons b rest ih =>
    intro j k hk hcond
    cases k with
    | zero =>
      have hfj : batch_fail j = true := by
        have := (hcond 0 (by simp)).mpr rfl
        simpa using this
      have hrest : keptJoin batch_fail (j + 1) rest = rest.flatten := by
        apply keptJoin_all_ok
        intro i hi
        have h2 := hcond (i + 1) (by simpa using Nat.succ_lt_succ hi)
        rw [show j + 1 + i = j + (i + 1) by omega]
        rw [Bool.eq_false_iff]
        intro hb
        have : i + 1 = 0 := h2.mp hb
        omega
      rw [List.eraseIdx_cons_zero]
      simp only [keptJoin, hfj, if_true]
      simpa using hrest
    | succ k' =>
      have hfj : batch_fail j = false := by
        rw [Bool.eq_false_iff]
        intro hb
        have h0 := (hcond 0 (by simp)).mp (by simpa using hb)
        omega
      rw [List.eraseIdx_cons_succ, List.flatten_cons]
      simp only [keptJoin, hfj]
      rw [if_neg (by simp)]
      congr 1
      apply ih (j + 1) k' (by simp only [List.length_cons] at hk; omega)
      intro i hi
      have h2 := hcond (i + 1) (by simpa using Nat.succ_lt_succ hi)
      rw [show j + 1 + i = j + (i + 1) by omega, h2]
      omega

theorem addBatches_sleeps (batch_fail : Nat → Bool) :
    ∀ (chunks : List (List Doc)) (j : Nat) (store : List Doc) (k : Nat),
      k < chunks.length → batch_fail (j + k) = true →
      2 * retry_delay ∈ (addBatches batch_fail j store chunks).2 := by
  intro chunks
  induction chunks with
  | nil => intro j store k hk _; exact absurd hk (by simp)
  | cons b rest ih =>
    intro j store k hk hfk
    cases hfj : batch_fail j with
    | true => simp [addBatches, hfj]
    | false =>
      cases k with
      | zero =>
        rw [Nat.add_zero] at hfk
        rw [hfk] at hfj
        exact absurd hfj (by simp)
      | succ k' =>
        have hmem := ih (j + 1) (store ++ b) k' (by simpa using Nat.lt_of_succ_lt_succ hk)
          (by rw [show j + 1 + k' = j + (k' + 1) by omega]; exact hfk)
        simp only [addBatches, hfj]
        rw [if_neg (by simp)]
        exact List.mem_append_right _ hmem

/-- C8: when the initial construction succeeds and exactly one of the
remaining batch inserts fails, the builder still returns a store (the
index ends Ready), the store holds every document except those of the
failed batch (all other batches were inserted, so the loop continued past
the failure), and a pause of twice retry_delay was taken. -/
theorem c8_batch_resilience :
    ∀ (documents : List Doc) (batch_fail : Nat → Bool) (k : Nat),
      documents ≠ [] →
      k < (chunksOf (min batch_size documents.length)
            (documents.drop (min batch_size documents.length))).length →
      (∀ i, i < (chunksOf (min batch_size documents.length)
            (documents.drop (min batch_size documents.length))).length →
          (batch_fail i = true ↔ i = k)) →
      (create_vectorstore_batched false batch_fail documents).1 =
        some (documents.take (min batch_size documents.length) ++
          ((chunksOf (min batch_size documents.length)
              (documents.drop (min batch_size documents.length))).eraseIdx k).flatten) ∧
      2 * retry_delay ∈ (create_vectorstore_batched false batch_fail documents).2 := by
  intro documents batch_fail k hne hk hcond
  have hred : create_vectorstore_batched false batch_fail documents =
      (some (addBatches batch_fail 0
          (documents.take (min batch_size documents.length))
          (chunksOf (min batch_size documents.length)
            (documents.drop (min batch_size documents.length)))).1,
        (addBatches batch_fail 0
          (documents.take (min batch_size documents.length))
          (chunksOf (min batch_size documents.length)
            (documents.drop (min batch_size documents.length)))).2) := by
    unfold create_vectorstore_batched
    rw [if_neg hne]
    rfl
  constructor
  · rw [hred]
    show some _ = some _
    congr 1
    rw [addBatches_fst]
    congr 1
    apply keptJoin_eraseIdx batch_fail _ 0 k hk
    intro i hi
    simpa using hcond i hi
  · rw [hred]
    apply addBatches_sleeps batch_fail _ 0 _ k hk
    simpa using (hcond k hk).mpr rfl

/-- Witness for C8: forty five documents, a first batch of twenty, two
remaining batches, the first remaining batch insert fails. -/
theorem c8_batch_resilience_witness :
    (create_vectorstore_batched false (fun j => decide (j = 0)) c8Docs).1 =
      some (c8Docs.take (min batch_size c8Docs.length) ++
        ((chunksOf (min batch_size c8Docs.length)
            (c8Docs.drop (min batch_size c8Docs.length))).eraseIdx 0).flatten) ∧
    2 * retry_delay ∈ (create_vectorstore_batched false (fun j => decide (j = 0)) c8Docs).2 :=
  c8_batch_resilience c8Docs (fun j => decide (j = 0)) 0 (by decide) (by decide)
    (fun i _ => by simp)

/-! ## C9: idempotence of the build operation -/

/-- C9: a second invocation of create_vectorstores with both stores Ready
and a cache that, where present, holds exactly the Ready contents (the
invariant the save step maintains) returns the stores exactly unchanged
and runs no rebuild branch: no passage is duplicated in either index and
the already Ready state is reused. -/
theorem c9_idempotent_rebuild :
    ∀ (env : BuildEnv) (s : DPState) (c : CacheState) (F E : List Doc),
      s.facts_vectorstore = some F →
      s.external_vectorstore = some E →
      (c.facts = none ∨ c.facts = some (some F)) →
      (c.external = none ∨ c.external = some (some E)) →
      create_vectorstores env s c =
        .ok (s, save_to_cache s c env.facts_save_fail env.external_save_fail, false) := by
  intro env s c F E hF hE hcf hce
  have hload : load_from_cache s c = s := by
    unfold load_from_cache
    rcases hcf with hcf | hcf <;> rcases hce with hce | hce <;>
      rw [hcf, hce] <;> simp [← hF, ← hE]
  unfold create_vectorstores
  rw [hload]
  rw [if_neg (by simp [hF])]
  rw [if_neg (by simp [hE])]

/-- Witness for C9: a concrete Ready processor with a matching cache. -/
theorem c9_idempotent_rebuild_witness :
    create_vectorstores c9Env c9State c9Cache =
      .ok (c9State, save_to_cache c9State c9Cache c9Env.facts_save_fail
        c9Env.external_save_fail, false) :=
  c9_idempotent_rebuild c9Env c9State c9Cache [blueDoc] [bigDoc] rfl rfl
    (Or.inr rfl) (Or.inl rfl)
